import Mathlib

/-!
Verification development for the hltv-match-predictor scoring-and-acquisition
engine.  JavaScript numbers are modelled as rationals (`ℚ`); where the
distinction between a finite number, `NaN` and `Infinity` matters
(`hltvClient.js` rating validation) a dedicated `JsNumber` type is used.
Optional / nullable values are modelled with `Option`.  Functions are
translated from the JavaScript source files named in each doc comment.
-/

namespace Hltv

/-- A raw player statistics object as consumed by `calculatePlayerImpactScores`
in `src/prediction/playerStrength.js`.  Each field is independently optional
(`none` models a field that is absent or not a number). -/
structure PlayerStat where
  killsPerRound : Option ℚ
  headshots : Option ℚ
  roundsContributed : Option ℚ
  mapsPlayed : Option ℚ
  rating : Option ℚ
  deathsPerRound : Option ℚ
deriving DecidableEq, Repr

/-- Normalisation settings of one sub-metric (`baseValue`, `maxMultiplier`)
from `PLAYER_IMPACT_CONFIG`. -/
structure MetricConfig where
  baseValue : ℚ
  maxMultiplier : ℚ
deriving DecidableEq, Repr

/-- Normalisation settings of the deaths-per-round sub-metric, the only
inverted one (`baseValue`, `minMultiplier`). -/
structure DprConfig where
  baseValue : ℚ
  minMultiplier : ℚ
deriving DecidableEq, Repr

/-- The four dimension weights of `PLAYER_IMPACT_CONFIG.weights`. -/
structure ImpactWeights where
  fragging : ℚ
  consistency : ℚ
  impact : ℚ
  survival : ℚ
deriving DecidableEq, Repr

/-- The clamp bounds of `PLAYER_IMPACT_CONFIG.rating`. -/
structure RatingBounds where
  min : ℚ
  max : ℚ
deriving DecidableEq, Repr

/-- `PLAYER_IMPACT_CONFIG` from `src/utils/config.js`.  That file is not part
of the sources; the structure is reconstructed from its uses in
`src/prediction/playerStrength.js`, and the numeric defaults, where needed,
are modelled from the spec (rating bounds `[0.5, 2.0]`). -/
structure PlayerImpactConfig where
  kpr : MetricConfig
  headshots : MetricConfig
  roundContribution : MetricConfig
  mapsPlayed : MetricConfig
  deathsPerRound : DprConfig
  rating : RatingBounds
  weights : ImpactWeights
deriving DecidableEq, Repr

/-- The impact-score accumulator built by `calculatePlayerImpactScores`
(`src/prediction/playerStrength.js`): four dimension scores, the per-dimension
count of contributing sub-metrics (`factorsUsed`) and the total
`dataQualityPoints` counter. -/
structure PlayerImpactScores where
  fragging : ℚ
  consistency : ℚ
  impact : ℚ
  survival : ℚ
  factorsUsedFragging : ℕ
  factorsUsedConsistency : ℕ
  factorsUsedImpact : ℕ
  factorsUsedSurvival : ℕ
  dataQualityPoints : ℕ
deriving DecidableEq, Repr

/-- `calculatePlayerImpactScores` from `src/prediction/playerStrength.js`
(lines 14-69).  Returns `none` exactly when the input is null.  Each dimension
accumulates the present sub-metrics and is divided by the number of
contributors when that number is positive. -/
def calculatePlayerImpactScores (cfg : PlayerImpactConfig) :
    Option PlayerStat → Option PlayerImpactScores
  | none => none
  | some stats =>
    let fragKpr : ℚ × ℕ := match stats.killsPerRound with
      | some v => (min (v / cfg.kpr.baseValue) cfg.kpr.maxMultiplier, 1)
      | none => (0, 0)
    let fragHs : ℚ × ℕ := match stats.headshots with
      | some v => (min (v / cfg.headshots.baseValue) cfg.headshots.maxMultiplier, 1)
      | none => (0, 0)
    let fraggingSum : ℚ := fragKpr.1 + fragHs.1
    let fraggingCount : ℕ := fragKpr.2 + fragHs.2
    let fragging : ℚ := if 0 < fraggingCount then fraggingSum / fraggingCount else fraggingSum
    let consRc : ℚ × ℕ := match stats.roundsContributed with
      | some v => (min (v / cfg.roundContribution.baseValue) cfg.roundContribution.maxMultiplier, 1)
      | none => (0, 0)
    let consMaps : ℚ × ℕ := match stats.mapsPlayed with
      | some v => (min (v / cfg.mapsPlayed.baseValue) cfg.mapsPlayed.maxMultiplier, 1)
      | none => (0, 0)
    let consistencySum : ℚ := consRc.1 + consMaps.1
    let consistencyCount : ℕ := consRc.2 + consMaps.2
    let consistency : ℚ :=
      if 0 < consistencyCount then consistencySum / consistencyCount else consistencySum
    let impactPair : ℚ × ℕ := match stats.rating with
      | some v => (v, 1)
      | none => (0, 0)
    let survivalPair : ℚ × ℕ := match stats.deathsPerRound with
      | some v => (max (1 - v / cfg.deathsPerRound.baseValue) cfg.deathsPerRound.minMultiplier, 1)
      | none => (0, 0)
    some
      { fragging := fragging
        consistency := consistency
        impact := impactPair.1
        survival := survivalPair.1
        factorsUsedFragging := fraggingCount
        factorsUsedConsistency := consistencyCount
        factorsUsedImpact := impactPair.2
        factorsUsedSurvival := survivalPair.2
        dataQualityPoints := fraggingCount + consistencyCount + impactPair.2 + survivalPair.2 }

/-- The `(weightedSum, totalWeight)` pair accumulated by the
`Object.entries(weights).forEach` loop of `calculateWeightedPlayerRating`
(`src/prediction/playerStrength.js`, lines 93-99).  An aspect contributes iff
its score is non-zero (the `!== undefined` half of the source condition is
always true for a record field).  Iteration order: fragging, consistency,
impact, survival. -/
def weightedSumAndWeight (cfg : PlayerImpactConfig) (s : PlayerImpactScores) : ℚ × ℚ :=
  let step : ℚ × ℚ → ℚ → ℚ → ℚ × ℚ := fun acc score w =>
    if score ≠ 0 then (acc.1 + score * w, acc.2 + w) else acc
  step (step (step (step (0, 0) s.fragging cfg.weights.fragging)
        s.consistency cfg.weights.consistency)
      s.impact cfg.weights.impact)
    s.survival cfg.weights.survival

/-- The value of `finalRating` in `calculateWeightedPlayerRating` just before
the clamp (`src/prediction/playerStrength.js`, lines 101-104): the weighted
sum divided by the total weight actually used, or the default rating when no
weight was applied. -/
def weightedRatingPreClamp (cfg : PlayerImpactConfig) (defaultRating : ℚ)
    (s : PlayerImpactScores) : ℚ :=
  let sw := weightedSumAndWeight cfg s
  if 0 < sw.2 then sw.1 / sw.2 else defaultRating

/-- Modelled from the spec: the pre-clamp weighted rating of §4.2, missing
from the sources together with `src/utils/config.js` only in its wording — it
weights exactly the dimensions "that had at least one contributing
sub-metric" (`factorsUsed > 0`), renormalising by the sum of their weights.
Kept separate from `weightedRatingPreClamp` (translated from the code) so the
two can be compared. -/
def specWeightedRatingPreClamp (cfg : PlayerImpactConfig) (defaultRating : ℚ)
    (s : PlayerImpactScores) : ℚ :=
  let step : ℚ × ℚ → ℚ → ℕ → ℚ → ℚ × ℚ := fun acc score count w =>
    if 0 < count then (acc.1 + score * w, acc.2 + w) else acc
  let sw :=
    step (step (step (step (0, 0) s.fragging s.factorsUsedFragging cfg.weights.fragging)
          s.consistency s.factorsUsedConsistency cfg.weights.consistency)
        s.impact s.factorsUsedImpact cfg.weights.impact)
      s.survival s.factorsUsedSurvival cfg.weights.survival
  if 0 < sw.2 then sw.1 / sw.2 else defaultRating

/-- `calculateWeightedPlayerRating` from `src/prediction/playerStrength.js`
(lines 76-111): default rating for null stats, otherwise the renormalised
weighted rating clamped as `Math.max(min, Math.min(finalRating, max))`. -/
def calculateWeightedPlayerRating (cfg : PlayerImpactConfig) (defaultRating : ℚ)
    (stats : Option PlayerStat) : ℚ :=
  match stats with
  | none => defaultRating
  | some s =>
    match calculatePlayerImpactScores cfg (some s) with
    | none => defaultRating
    | some scores =>
      let pre := weightedRatingPreClamp cfg defaultRating scores
      max cfg.rating.min (min pre cfg.rating.max)

/-- A concrete admissible `PLAYER_IMPACT_CONFIG` used to evaluate the
definitions at closed inputs.  The rating bounds `[0.5, 2.0]` are the spec's
defaults; the base values, multipliers and (positive) weights are arbitrary
admissible choices, since `src/utils/config.js` is absent from the sources. -/
def exampleImpactConfig : PlayerImpactConfig where
  kpr := ⟨7/10, 2⟩
  headshots := ⟨1/2, 2⟩
  roundContribution := ⟨7/10, 2⟩
  mapsPlayed := ⟨30, 2⟩
  deathsPerRound := ⟨7/10, 1/5⟩
  rating := ⟨1/2, 2⟩
  weights := ⟨3/10, 1/5, 7/20, 3/20⟩

/-- A player statistics object whose only populated field is `rating`. -/
def ratingOnlyStat (r : ℚ) : PlayerStat :=
  ⟨none, none, none, none, some r, none⟩

/-- A player statistics object whose only populated field is
`killsPerRound = 0`. -/
def kprZeroStat : PlayerStat :=
  ⟨some 0, none, none, none, none, none⟩

/-- A JavaScript number as seen by the rating validation in
`src/services/hltvClient.js`: `NaN`, an infinity, or a finite value. -/
inductive JsNumber where
  | nan : JsNumber
  | posInf : JsNumber
  | negInf : JsNumber
  | finite (val : ℚ) : JsNumber
deriving DecidableEq, Repr

/-- A stats object returned by the upstream statistics source, as validated by
`fetchPlayerStatsById` (`src/services/hltvClient.js`).  `rating = none` models
a rating field that is absent or not of number type; `otherData` stands for
the remaining payload fields, which the gateway passes through untouched. -/
structure FetchedStats where
  rating : Option JsNumber
  otherData : ℕ
deriving DecidableEq, Repr

/-- The rating validation of `fetchPlayerStatsById`
(`src/services/hltvClient.js`, line 298): the source condition for rejecting a
stats object is `typeof stats.rating !== 'number' || isNaN(stats.rating)`, so
a rating passes iff it is of number type and is not `NaN`. -/
def ratingIsValidNumber (s : FetchedStats) : Bool :=
  match s.rating with
  | some JsNumber.nan => false
  | some _ => true
  | none => false

/-- Modelled from the spec: the predicate "the returned rating is a finite
number" (§4.1), which names the validation the gateway is specified to
perform.  `src/utils/config.js` aside, the code for the check is present
(`ratingIsValidNumber`); this spec-side predicate exists to be compared with
it. -/
def specRatingIsFinite (s : FetchedStats) : Bool :=
  match s.rating with
  | some (JsNumber.finite _) => true
  | _ => false

/-- The success-path processing of `fetchPlayerStatsById`
(`src/services/hltvClient.js`, lines 288-313) after the upstream call
returned without error: given the fetched value (null or a stats object),
produce the pair `(value written to the cache, value returned)`. -/
def processFetchedStats : Option FetchedStats → Option FetchedStats × Option FetchedStats
  | none => (none, none)
  | some s => if ratingIsValidNumber s then (some s, some s) else (none, none)

/-- A cache entry as stored by `updateCache` in the cache manager
(`src/unnamed/part_003`, lines 177-188): the stats object (possibly null,
a cached known miss) plus a millisecond timestamp. -/
structure CacheEntry where
  stats : Option FetchedStats
  timestamp : ℤ
deriving DecidableEq, Repr

/-- `getFromCache` from the cache manager (`src/unnamed/part_003`,
lines 157-174).  Result `none` models the source's `undefined` (no entry, or
an expired entry that is deleted); `some v` models returning
`cacheEntry.stats`, where `v` itself may be `none` (a cached null).  The
expiry test mirrors the source guard
`!isTestMode && cacheExpirationHours > 0 && cacheEntry.timestamp` followed by
`isBefore(new Date(cacheEntry.timestamp), subHours(now, cacheExpirationHours))`,
with times in integer milliseconds. -/
def getFromCache (testMode : Bool) (expirationHours : ℕ) (now : ℤ)
    (cache : ℕ → Option CacheEntry) (playerId : ℕ) : Option (Option FetchedStats) :=
  match cache playerId with
  | none => none
  | some entry =>
    if !testMode ∧ 0 < expirationHours ∧ entry.timestamp ≠ 0 then
      if entry.timestamp < now - (expirationHours : ℤ) * 3600000 then none
      else some entry.stats
    else some entry.stats

/-- Observable behaviour of one `fetchPlayerStatsById` call: whether an
upstream request was issued, the returned value, and the value written to the
cache (`none` when no write happened). -/
structure ClientFetchTrace where
  usedUpstream : Bool
  returned : Option FetchedStats
  cachedWrite : Option (Option FetchedStats)
deriving DecidableEq, Repr

/-- `fetchPlayerStatsById` from `src/services/hltvClient.js` (lines 275-314).
The cache phase is the source's `const cachedData = getCacheValue(playerId);
if (cachedData) return cachedData;` — the truthiness test means only a
non-null cached stats object short-circuits.  `upstream` is the outcome of
`_retryableRequest(() => hltv.getPlayerStats(...))`: an error (after the retry
wrapper gave up or hit a non-transient error) or a fetched value; the catch
branch caches null and returns null. -/
def fetchPlayerStatsById (testMode : Bool) (expirationHours : ℕ) (now : ℤ)
    (cache : ℕ → Option CacheEntry) (playerId : ℕ)
    (upstream : Except Unit (Option FetchedStats)) : ClientFetchTrace :=
  let cached := getFromCache testMode expirationHours now cache playerId
  match cached with
  | some (some s) => ⟨false, some s, none⟩
  | _ =>
    match upstream with
    | Except.error _ => ⟨true, none, some none⟩
    | Except.ok fetched =>
      let r := processFetchedStats fetched
      ⟨true, r.2, some r.1⟩

/-- A cache holding, for player id 7998, a fresh "known miss" entry
(`stats: null`) written at time 1000000 — exactly what the gateway stores
after a failed fetch. -/
def nullMissCache : ℕ → Option CacheEntry := fun playerId =>
  if playerId = 7998 then some ⟨none, 1000000⟩ else none

/-- A stats object whose rating is `Infinity`. -/
def infinityRatingStats : FetchedStats := ⟨some JsNumber.posInf, 42⟩

/-- The outcome of one upstream attempt inside `_retryableRequest`
(`src/services/hltvClient.js`): success, an error classified transient by
`_isTransientError`, or an error classified non-transient. -/
inductive AttemptOutcome where
  | success : AttemptOutcome
  | transientError : AttemptOutcome
  | permanentError : AttemptOutcome
deriving DecidableEq, Repr

/-- Observable behaviour of one `_retryableRequest` run: how many upstream
attempts were issued, the backoff waits performed before attempts after the
first (in order), and whether the run returned successfully. -/
structure RetryTrace where
  attempts : ℕ
  backoffWaits : List ℚ
  succeeded : Bool
deriving DecidableEq, Repr

/-- One iteration of the `for (let attempt = 1; attempt <= retryAttempts; ...)`
loop of `_retryableRequest` (`src/services/hltvClient.js`, lines 144-182),
recursing on the number of remaining loop iterations.  Before every attempt
after the first the loop waits `retryDelay * attempt`; a success or a
non-transient error ends the run at the current attempt; a transient error on
the final allowed attempt re-throws; otherwise the loop continues. -/
def retryStep (retryDelay : ℚ) (outcome : ℕ → AttemptOutcome) :
    ℕ → ℕ → RetryTrace
  | _, 0 => ⟨0, [], false⟩
  | attempt, remaining + 1 =>
    let waitsHere : List ℚ := if 1 < attempt then [retryDelay * attempt] else []
    match outcome attempt with
    | AttemptOutcome.success => ⟨1, waitsHere, true⟩
    | AttemptOutcome.permanentError => ⟨1, waitsHere, false⟩
    | AttemptOutcome.transientError =>
      if remaining = 0 then ⟨1, waitsHere, false⟩
      else
        let rest := retryStep retryDelay outcome (attempt + 1) remaining
        ⟨1 + rest.attempts, waitsHere ++ rest.backoffWaits, rest.succeeded⟩

/-- `_retryableRequest` from `src/services/hltvClient.js` (lines 144-182),
with the configured `retryAttempts` and `retryDelay`, run against the
per-attempt outcomes `outcome`. -/
def retryableRequest (retryAttempts : ℕ) (retryDelay : ℚ)
    (outcome : ℕ → AttemptOutcome) : RetryTrace :=
  retryStep retryDelay outcome 1 retryAttempts

/-- An operation that fails with a non-transient error on every attempt. -/
def alwaysPermanent : ℕ → AttemptOutcome := fun _ => AttemptOutcome.permanentError

/-- An operation that fails with a transient error on every attempt. -/
def alwaysTransient : ℕ → AttemptOutcome := fun _ => AttemptOutcome.transientError

/-- The data-quality metrics consumed by `calculateConfidenceLevel`
(`src/prediction/confidenceCalculator.js`).  The source destructures every
count with default `0` and every flag with default `false`; the record holds
those post-default values. -/
structure ConfidenceMetrics where
  totalPlayers : ℕ
  playersWithStats : ℕ
  detailedStatsCount : ℕ
  h2hMatches : ℕ
  recentH2HMatches : ℕ
  mapSpecificMatches : ℕ
  mapNameProvided : Bool
  hasValidRanks : Bool
deriving DecidableEq, Repr

/-- `DATA_QUALITY_CONFIG` from `src/utils/config.js` (file absent from the
sources; structure reconstructed from its uses in
`src/prediction/confidenceCalculator.js`), flattened: `requirements.*`,
`adjustments.*`, `weights.*` and `thresholds.*`. -/
structure DataQualityConfig where
  expectedDataPoints : ℚ
  minPlayersWithStats : ℕ
  minTotalMatches : ℕ
  minRecentMatches : ℕ
  minMatchesForMapStats : ℕ
  noPlayerStats : ℚ
  insufficientH2H : ℚ
  insufficientRecentH2H : ℚ
  insufficientMapData : ℚ
  missingRank : ℚ
  defaultConfidence : ℚ
  lowQualityCap : ℚ
  weightPlayerStats : ℚ
  weightH2H : ℚ
  weightMapStats : ℚ
  weightRank : ℚ
  thresholdMedium : ℚ
  thresholdHigh : ℚ
deriving DecidableEq, Repr

/-- The discrete quality tier of a `ConfidenceResult`. -/
inductive QualityLevel where
  | low : QualityLevel
  | medium : QualityLevel
  | high : QualityLevel
deriving DecidableEq, Repr

/-- The `playerStatsQuality` sub-score of `calculateConfidenceLevel`
(`src/prediction/confidenceCalculator.js`, lines 31-41): stays `0` unless
`totalPlayers > 0`, otherwise an equal-weight blend of the basic ratio
`playersWithStats / totalPlayers` and the detailed ratio
`detailedStatsCount / (totalPlayers * (expectedDataPoints || 6))`. -/
def playerStatsQuality (cfg : DataQualityConfig) (m : ConfidenceMetrics) : ℚ :=
  if 0 < m.totalPlayers then
    let basicShare : ℚ := (m.playersWithStats : ℚ) / (m.totalPlayers : ℚ)
    let expected : ℚ := if cfg.expectedDataPoints = 0 then 6 else cfg.expectedDataPoints
    let maxPossibleDetailedPoints : ℚ := (m.totalPlayers : ℚ) * expected
    let detailedShare : ℚ :=
      if 0 < maxPossibleDetailedPoints then
        (m.detailedStatsCount : ℚ) / maxPossibleDetailedPoints
      else 0
    basicShare * (1 / 2) + detailedShare * (1 / 2)
  else 0

/-- Whether the player-stats penalty branch of `calculateConfidenceLevel`
fires (`src/prediction/confidenceCalculator.js`, lines 43-46): only inside the
`totalPlayers > 0` block, when
`playersWithStats < minPlayersWithStats * 2`. -/
def playerStatsPenaltyTriggered (cfg : DataQualityConfig) (m : ConfidenceMetrics) : Prop :=
  0 < m.totalPlayers ∧ m.playersWithStats < cfg.minPlayersWithStats * 2

instance (cfg : DataQualityConfig) (m : ConfidenceMetrics) :
    Decidable (playerStatsPenaltyTriggered cfg m) :=
  inferInstanceAs (Decidable (_ ∧ _))

/-- The multiplier the player-stats branch contributes to `finalConfidence`:
`adjustments.noPlayerStats` when the penalty fires, `1` otherwise. -/
def playerStatsPenalty (cfg : DataQualityConfig) (m : ConfidenceMetrics) : ℚ :=
  if playerStatsPenaltyTriggered cfg m then cfg.noPlayerStats else 1

/-- `h2hMatches >= requirements.h2h.minTotalMatches`. -/
def h2hTotalMet (cfg : DataQualityConfig) (m : ConfidenceMetrics) : Prop :=
  cfg.minTotalMatches ≤ m.h2hMatches

instance (cfg : DataQualityConfig) (m : ConfidenceMetrics) :
    Decidable (h2hTotalMet cfg m) := inferInstanceAs (Decidable (_ ≤ _))

/-- `recentH2HMatches >= requirements.h2h.minRecentMatches`. -/
def h2hRecentMet (cfg : DataQualityConfig) (m : ConfidenceMetrics) : Prop :=
  cfg.minRecentMatches ≤ m.recentH2HMatches

instance (cfg : DataQualityConfig) (m : ConfidenceMetrics) :
    Decidable (h2hRecentMet cfg m) := inferInstanceAs (Decidable (_ ≤ _))

/-- The `h2hQuality` sub-score (`src/prediction/confidenceCalculator.js`,
lines 52-57): computed only when `minTotalMatches > 0`, as
`(totalMet ? 0.6 : 0) + (recentMet ? 0.4 : 0)`. -/
def h2hQuality (cfg : DataQualityConfig) (m : ConfidenceMetrics) : ℚ :=
  if 0 < cfg.minTotalMatches then
    (if h2hTotalMet cfg m then 3 / 5 else 0) + (if h2hRecentMet cfg m then 2 / 5 else 0)
  else 0

/-- The multiplier of the insufficient-total-H2H penalty. -/
def h2hTotalPenalty (cfg : DataQualityConfig) (m : ConfidenceMetrics) : ℚ :=
  if 0 < cfg.minTotalMatches ∧ ¬h2hTotalMet cfg m then cfg.insufficientH2H else 1

/-- The multiplier of the insufficient-recent-H2H penalty (applied only when
the total requirement was met but the recent one was not). -/
def h2hRecentPenalty (cfg : DataQualityConfig) (m : ConfidenceMetrics) : ℚ :=
  if 0 < cfg.minTotalMatches ∧ ¬h2hRecentMet cfg m ∧ h2hTotalMet cfg m then
    cfg.insufficientRecentH2H
  else 1

/-- Guard of the map-stats block (`src/prediction/confidenceCalculator.js`,
line 72): a map was requested and `minMatchesForMapStats > 0`. -/
def mapStatsGuard (cfg : DataQualityConfig) (m : ConfidenceMetrics) : Prop :=
  m.mapNameProvided = true ∧ 0 < cfg.minMatchesForMapStats

instance (cfg : DataQualityConfig) (m : ConfidenceMetrics) :
    Decidable (mapStatsGuard cfg m) := inferInstanceAs (Decidable (_ ∧ _))

/-- `mapSpecificMatches >= requirements.h2h.minMatchesForMapStats`. -/
def mapStatsMet (cfg : DataQualityConfig) (m : ConfidenceMetrics) : Prop :=
  cfg.minMatchesForMapStats ≤ m.mapSpecificMatches

instance (cfg : DataQualityConfig) (m : ConfidenceMetrics) :
    Decidable (mapStatsMet cfg m) := inferInstanceAs (Decidable (_ ≤ _))

/-- The `mapStatsQuality` sub-score (lines 71-74): `1` when a map was
requested and its match count meets the minimum, otherwise `0`. -/
def mapStatsQuality (cfg : DataQualityConfig) (m : ConfidenceMetrics) : ℚ :=
  if mapStatsGuard cfg m then (if mapStatsMet cfg m then 1 else 0) else 0

/-- The multiplier of the insufficient-map-data penalty. -/
def mapStatsPenalty (cfg : DataQualityConfig) (m : ConfidenceMetrics) : ℚ :=
  if mapStatsGuard cfg m ∧ ¬mapStatsMet cfg m then cfg.insufficientMapData else 1

/-- The `rankQuality` sub-score (line 84). -/
def rankQuality (m : ConfidenceMetrics) : ℚ :=
  if m.hasValidRanks then 1 else 0

/-- The multiplier of the missing-ranks penalty (line 88):
`Q_CONFIG.adjustments.missingRank || 0.95`, the JavaScript `||` falling back
to `0.95` on a falsy (zero) configured value. -/
def rankPenalty (cfg : DataQualityConfig) (m : ConfidenceMetrics) : ℚ :=
  if m.hasValidRanks then 1
  else if cfg.missingRank = 0 then 19 / 20 else cfg.missingRank

/-- `weightedQualityScore` (`src/prediction/confidenceCalculator.js`,
lines 92-103): the weight-combined sub-scores, `0` when the total weight is
not positive. -/
def weightedQualityScore (cfg : DataQualityConfig) (m : ConfidenceMetrics) : ℚ :=
  let totalWeight :=
    cfg.weightPlayerStats + cfg.weightH2H + cfg.weightMapStats + cfg.weightRank
  if 0 < totalWeight then
    (playerStatsQuality cfg m * cfg.weightPlayerStats +
        h2hQuality cfg m * cfg.weightH2H +
        mapStatsQuality cfg m * cfg.weightMapStats +
        rankQuality m * cfg.weightRank) /
      totalWeight
  else 0

/-- The quality tier classification (lines 106-111). -/
def qualityLevel (cfg : DataQualityConfig) (m : ConfidenceMetrics) : QualityLevel :=
  if cfg.thresholdHigh ≤ weightedQualityScore cfg m then QualityLevel.high
  else if cfg.thresholdMedium ≤ weightedQualityScore cfg m then QualityLevel.medium
  else QualityLevel.low

/-- The factor tags pushed while computing the sub-scores, in source order
(player stats, total H2H, recent H2H, map data, ranks). -/
def penaltyFactors (cfg : DataQualityConfig) (m : ConfidenceMetrics) : List String :=
  (if playerStatsPenaltyTriggered cfg m then ["insufficient_player_stats"] else []) ++
    (if 0 < cfg.minTotalMatches ∧ ¬h2hTotalMet cfg m then ["insufficient_h2h_matches"] else []) ++
    (if 0 < cfg.minTotalMatches ∧ ¬h2hRecentMet cfg m ∧ h2hTotalMet cfg m then
      ["insufficient_recent_h2h"] else []) ++
    (if mapStatsGuard cfg m ∧ ¬mapStatsMet cfg m then ["insufficient_map_data"] else []) ++
    (if m.hasValidRanks then [] else ["missing_team_ranks"])

/-- The full factor list returned (lines 115-118): the penalty tags, plus
`low_overall_data_quality` appended when the tier is low and the tag is not
already present. -/
def allFactors (cfg : DataQualityConfig) (m : ConfidenceMetrics) : List String :=
  let factors := penaltyFactors cfg m
  factors ++
    (if qualityLevel cfg m = QualityLevel.low ∧
        ¬(factors.contains ("low_overall_data_quality")) then
      ["low_overall_data_quality"]
    else [])

/-- The value of `finalConfidence` after all multiplicative penalties and the
base confidence factor, before the low-quality cap and the `[0,1]` clamp
(`src/prediction/confidenceCalculator.js`, lines 25-114): it starts at `1.0`
and is multiplied by each triggered penalty in turn and finally by
`adjustments.defaultConfidence`. -/
def finalConfidencePreClamp (cfg : DataQualityConfig) (m : ConfidenceMetrics) : ℚ :=
  1 * playerStatsPenalty cfg m * h2hTotalPenalty cfg m * h2hRecentPenalty cfg m *
    mapStatsPenalty cfg m * rankPenalty cfg m * cfg.defaultConfidence

/-- The returned `level` (lines 113-121): the multiplicative confidence,
capped at `adjustments.lowQualityCap` when the tier is low, then clamped to
`[0, 1]` as `Math.max(0, Math.min(1, finalConfidence))`. -/
def confidenceLevel (cfg : DataQualityConfig) (m : ConfidenceMetrics) : ℚ :=
  let withCap :=
    if qualityLevel cfg m = QualityLevel.low then
      min (finalConfidencePreClamp cfg m) cfg.lowQualityCap
    else finalConfidencePreClamp cfg m
  max 0 (min 1 withCap)

/-- The result of `calculateConfidenceLevel`
(`src/prediction/confidenceCalculator.js`): `{ level, factors, qualityLevel }`. -/
structure ConfidenceResult where
  level : ℚ
  factors : List String
  qualityLevel : QualityLevel
deriving DecidableEq, Repr

/-- `calculateConfidenceLevel` from `src/prediction/confidenceCalculator.js`
(lines 17-130), assembled from the sub-score, penalty and classification
definitions above. -/
def calculateConfidenceLevel (cfg : DataQualityConfig) (m : ConfidenceMetrics) :
    ConfidenceResult :=
  ⟨confidenceLevel cfg m, allFactors cfg m, qualityLevel cfg m⟩

/-- A concrete admissible `DATA_QUALITY_CONFIG` used to evaluate the
definitions at closed inputs.  `lowQualityCap = 0.4` and the tier thresholds
`0.5 / 0.8` are the spec's defaults; the remaining values are arbitrary
admissible choices, since `src/utils/config.js` is absent from the sources. -/
def exampleQualityConfig : DataQualityConfig where
  expectedDataPoints := 6
  minPlayersWithStats := 3
  minTotalMatches := 3
  minRecentMatches := 1
  minMatchesForMapStats := 3
  noPlayerStats := 1 / 2
  insufficientH2H := 7 / 10
  insufficientRecentH2H := 17 / 20
  insufficientMapData := 9 / 10
  missingRank := 19 / 20
  defaultConfidence := 9 / 10
  lowQualityCap := 2 / 5
  weightPlayerStats := 2 / 5
  weightH2H := 3 / 10
  weightMapStats := 1 / 5
  weightRank := 1 / 10
  thresholdMedium := 1 / 2
  thresholdHigh := 4 / 5

/-- The raw logistic probability `1 / (1 + Math.exp(-scalingFactor *
effectiveDifference))` of `predictWinProbability`
(`src/prediction/strengthCalculator.js`, line 162). -/
noncomputable def team1Prob (scalingFactor effectiveDifference : ℝ) : ℝ :=
  1 / (1 + Real.exp (-scalingFactor * effectiveDifference))

/-- `clampedTeam1Prob` (`src/prediction/strengthCalculator.js`, line 167):
`Math.max(minProb, Math.min(maxProb, team1Prob))`, with the configured
probability bounds passed as rationals. -/
noncomputable def clampedTeam1Prob (minProbability maxProbability : ℚ)
    (scalingFactor effectiveDifference : ℝ) : ℝ :=
  max (minProbability : ℝ)
    (min (maxProbability : ℝ) (team1Prob scalingFactor effectiveDifference))

/-- `clampedTeam2Prob` (`src/prediction/strengthCalculator.js`, line 168):
derived as `1 - clampedTeam1Prob`, never clamped itself. -/
noncomputable def clampedTeam2Prob (minProbability maxProbability : ℚ)
    (scalingFactor effectiveDifference : ℝ) : ℝ :=
  1 - clampedTeam1Prob minProbability maxProbability scalingFactor effectiveDifference

/-- A roster member as produced by `fetchTeamDataByName`. -/
structure RosterPlayer where
  id : ℕ
  name : String
deriving DecidableEq, Repr

/-- A validated team data object as passed to `predictWinProbability` by
`src/core/main.js` (which skips the match when either team is null, so the
embedding takes the record directly). -/
structure TeamData where
  id : ℕ
  name : String
  rank : Option ℚ
  players : List RosterPlayer
deriving DecidableEq, Repr

/-- A head-to-head record as returned by `getHeadToHeadResults`
(`src/services/hltvClient.js`). -/
structure H2HRecord where
  team1Wins : ℕ
  team2Wins : ℕ
  totalMatches : ℕ
deriving DecidableEq, Repr

/-- `PREDICTION_CONFIG` from `src/utils/config.js` (file absent from the
sources; structure reconstructed from its uses in
`src/prediction/strengthCalculator.js`), flattened: `team.*`, `h2h.*`,
`maps.maxMapEffect` and `probability.*`. -/
structure PredictionConfig where
  ratingThreshold : ℚ
  rankNudgeEffect : ℚ
  h2hMinMatches : ℕ
  h2hMaxEffect : ℚ
  maxMapEffect : ℚ
  scalingFactor : ℚ
  minProbability : ℚ
  maxProbability : ℚ
deriving DecidableEq, Repr

/-- The summary returned by `calculateAveragePlayerStats`
(`src/prediction/playerStrength.js`). -/
structure TeamStrengthSummary where
  averageRating : ℚ
  playersAnalyzed : ℕ
  playersMissingStats : ℕ
deriving DecidableEq, Repr

/-- The rating and missing-counter contribution of one settled per-player
fetch in `calculateAveragePlayerStats` (`src/prediction/playerStrength.js`,
lines 144-167): a rejected promise or a null/rating-less result contributes
the default rating and increments the missing counter; a result with a
numeric rating contributes its weighted rating. -/
def playerContribution (icfg : PlayerImpactConfig) (defaultRating : ℚ)
    (result : Except Unit (Option PlayerStat)) : ℚ × ℕ :=
  match result with
  | Except.error _ => (defaultRating, 1)
  | Except.ok none => (defaultRating, 1)
  | Except.ok (some s) =>
    match s.rating with
    | some _ => (calculateWeightedPlayerRating icfg defaultRating (some s), 0)
    | none => (defaultRating, 1)

/-- `calculateAveragePlayerStats` from `src/prediction/playerStrength.js`
(lines 122-181).  `fetch` gives the settled outcome of
`fetchPlayerStatsById` for each player id (an error for a rejected promise —
already absorbed to the default rating — or the fetched stats / null).  The
average divides by the full roster size, defaulted players included. -/
def calculateAveragePlayerStats (icfg : PlayerImpactConfig) (defaultRating : ℚ)
    (players : List RosterPlayer)
    (fetch : ℕ → Except Unit (Option PlayerStat)) : TeamStrengthSummary :=
  if players.isEmpty then ⟨defaultRating, 0, 0⟩
  else
    let totals :=
      players.foldl
        (fun acc p =>
          let c := playerContribution icfg defaultRating (fetch p.id)
          (acc.1 + c.1, acc.2 + c.2))
        ((0 : ℚ), (0 : ℕ))
    let avg :=
      if 0 < players.length then totals.1 / (players.length : ℚ) else defaultRating
    ⟨avg, players.length, totals.2⟩

/-- `calculateTeamStrengthFromPlayers` from
`src/prediction/strengthCalculator.js` (lines 45-73) for a well-formed team
record (the null-team defensive branch is unreachable for the validated
records `main.js` passes in): the team strength is the roster's average
weighted rating. -/
def calculateTeamStrengthFromPlayers (icfg : PlayerImpactConfig) (defaultRating : ℚ)
    (team : TeamData) (fetch : ℕ → Except Unit (Option PlayerStat)) :
    TeamStrengthSummary :=
  calculateAveragePlayerStats icfg defaultRating team.players fetch

/-- One entry of the `adjustments` audit log of `predictWinProbability`
(`src/prediction/strengthCalculator.js`), with the formatted strings replaced
by constructors carrying the logged numeric value. -/
inductive Adjustment where
  | rankNudgeApplied (value : ℚ) : Adjustment
  | rankNudgeSkippedMissingRanks : Adjustment
  | h2hNudgeApplied (value : ℚ) : Adjustment
  | h2hNudgeSkippedTooFewMatches : Adjustment
  | h2hNudgeError : Adjustment
  | mapNudgeSkippedNotImplemented (mapName : String) : Adjustment
deriving DecidableEq, Repr

/-- The prediction result object returned by `predictWinProbability`
(`src/prediction/strengthCalculator.js`, lines 176-194), with the team echo
fields reduced to the probabilities. -/
structure PredictionOutcome where
  team1Probability : ℝ
  team2Probability : ℝ
  confidence : ℚ
  confidenceFactors : List String
  qualityLevel : QualityLevel
  baseDifference : ℚ
  effectiveDifference : ℚ
  adjustments : List Adjustment

/-- `predictWinProbability` from `src/prediction/strengthCalculator.js`
(lines 84-199).  `fetch` is the settled per-player outcome of the gateway's
`fetchPlayerStatsById` (errors already absorbed downstream), `h2h` the
outcome of `client.getHeadToHeadResults` whose failure the source catches and
logs as an `H2HNudge: Error` adjustment (leaving the H2H metrics at their
destructuring default `0`).  Returns `some` outcome, or `none` for the outer
catch branch that returns null. -/
noncomputable def predictWinProbability (icfg : PlayerImpactConfig)
    (defaultRating : ℚ) (qcfg : DataQualityConfig) (pcfg : PredictionConfig)
    (team1Data team2Data : TeamData)
    (fetch : ℕ → Except Unit (Option PlayerStat))
    (h2h : Except Unit H2HRecord) (mapName : Option String) :
    Option PredictionOutcome :=
  let team1StrengthData := calculateTeamStrengthFromPlayers icfg defaultRating team1Data fetch
  let team2StrengthData := calculateTeamStrengthFromPlayers icfg defaultRating team2Data fetch
  let baseDifference := team1StrengthData.averageRating - team2StrengthData.averageRating
  let hasValidRanks := team1Data.rank.isSome && team2Data.rank.isSome
  let rankStep : ℚ × List Adjustment :=
    if |baseDifference| < pcfg.ratingThreshold ∧ hasValidRanks = true then
      let rankDifference := team2Data.rank.getD 0 - team1Data.rank.getD 0
      let rankNudge :=
        max (-pcfg.rankNudgeEffect)
          (min pcfg.rankNudgeEffect (rankDifference * (1 / 1000)))
      (rankNudge, [Adjustment.rankNudgeApplied rankNudge])
    else if |baseDifference| < pcfg.ratingThreshold then
      (0, [Adjustment.rankNudgeSkippedMissingRanks])
    else (0, [])
  let h2hStep : ℚ × List Adjustment × ℕ :=
    match h2h with
    | Except.error _ => (0, [Adjustment.h2hNudgeError], 0)
    | Except.ok r =>
      if pcfg.h2hMinMatches ≤ r.totalMatches then
        if 0 < r.totalMatches then
          let winRateDiff :=
            (r.team1Wins : ℚ) / (r.totalMatches : ℚ) -
              (r.team2Wins : ℚ) / (r.totalMatches : ℚ)
          let h2hNudge :=
            max (-pcfg.h2hMaxEffect)
              (min pcfg.h2hMaxEffect (winRateDiff * pcfg.h2hMaxEffect * 2))
          (h2hNudge, [Adjustment.h2hNudgeApplied h2hNudge], r.totalMatches)
        else (0, [], r.totalMatches)
      else (0, [Adjustment.h2hNudgeSkippedTooFewMatches], r.totalMatches)
  let mapStep : List Adjustment :=
    match mapName with
    | some mn =>
      if 0 < pcfg.maxMapEffect then [Adjustment.mapNudgeSkippedNotImplemented mn] else []
    | none => []
  let effectiveDifference := baseDifference + rankStep.1 + h2hStep.1
  let confidenceMetrics : ConfidenceMetrics :=
    { totalPlayers := team1StrengthData.playersAnalyzed + team2StrengthData.playersAnalyzed
      playersWithStats :=
        (team1StrengthData.playersAnalyzed - team1StrengthData.playersMissingStats) +
          (team2StrengthData.playersAnalyzed - team2StrengthData.playersMissingStats)
      detailedStatsCount := 0
      h2hMatches := h2hStep.2.2
      recentH2HMatches := h2hStep.2.2
      mapSpecificMatches := 0
      mapNameProvided := mapName.isSome
      hasValidRanks := hasValidRanks }
  let p1 :=
    clampedTeam1Prob pcfg.minProbability pcfg.maxProbability
      (pcfg.scalingFactor : ℝ) (effectiveDifference : ℝ)
  let confidenceResult := calculateConfidenceLevel qcfg confidenceMetrics
  some
    { team1Probability := p1
      team2Probability := 1 - p1
      confidence := confidenceResult.level
      confidenceFactors := confidenceResult.factors
      qualityLevel := confidenceResult.qualityLevel
      baseDifference := baseDifference
      effectiveDifference := effectiveDifference
      adjustments := rankStep.2 ++ h2hStep.2.1 ++ mapStep }

/-- The impact scores computed for `kprZeroStat` under
`exampleImpactConfig`: the fragging dimension has one contributing sub-metric
(`killsPerRound`) and score `min (0 / 0.7) 2 = 0`. -/
def kprZeroScores : PlayerImpactScores := ⟨0, 0, 0, 0, 1, 0, 0, 0, 1⟩

/-- The impact scores computed for `ratingOnlyStat 1` under any config: only
the impact dimension contributes, with score `1`. -/
def ratingOneScores : PlayerImpactScores := ⟨0, 0, 1, 0, 0, 0, 1, 0, 1⟩

/-- Confidence metrics with every count zero and every flag false — what a
prediction with two empty rosters, failed H2H fetch, no map and missing ranks
produces. -/
def zeroMetrics : ConfidenceMetrics := ⟨0, 0, 0, 0, 0, 0, false, false⟩

/-!  ## Theorems  -/

lemma confidenceLevel_nonneg (cfg : DataQualityConfig) (m : ConfidenceMetrics) :
    0 ≤ confidenceLevel cfg m :=
  le_max_left 0 _

lemma confidenceLevel_le_one (cfg : DataQualityConfig) (m : ConfidenceMetrics) :
    confidenceLevel cfg m ≤ 1 :=
  max_le zero_le_one (min_le_left 1 _)

/-- C5: for every `PlayerStat` input — any combination of present and absent
sub-metrics, and also null input — `calculateWeightedPlayerRating` lands in
the closed interval `[0.5, 2.0]` given the default configured bounds and the
default rating `0.9`. -/
theorem computeRating_within_default_bounds (cfg : PlayerImpactConfig)
    (defaultRating : ℚ) (stats : Option PlayerStat)
    (hmin : cfg.rating.min = 1 / 2) (hmax : cfg.rating.max = 2)
    (hd : defaultRating = 9 / 10) :
    1 / 2 ≤ calculateWeightedPlayerRating cfg defaultRating stats ∧
      calculateWeightedPlayerRating cfg defaultRating stats ≤ 2 := by
  cases stats with
  | none =>
    subst hd
    constructor <;> norm_num [calculateWeightedPlayerRating]
  | some s =>
    obtain ⟨scores, hs⟩ : ∃ sc, calculatePlayerImpactScores cfg (some s) = some sc :=
      ⟨_, rfl⟩
    have hval : calculateWeightedPlayerRating cfg defaultRating (some s) =
        max cfg.rating.min
          (min (weightedRatingPreClamp cfg defaultRating scores) cfg.rating.max) := by
      simp [calculateWeightedPlayerRating, hs]
    rw [hval, hmin, hmax]
    exact ⟨le_max_left _ _, max_le (by norm_num) (min_le_right _ _)⟩

/-- Witness for C5 at a concrete configuration and input. -/
theorem computeRating_within_default_bounds_witness :
    exampleImpactConfig.rating.min = 1 / 2 ∧ exampleImpactConfig.rating.max = 2 ∧
    (1 / 2 ≤ calculateWeightedPlayerRating exampleImpactConfig (9 / 10)
        (some (ratingOnlyStat (23 / 20))) ∧
      calculateWeightedPlayerRating exampleImpactConfig (9 / 10)
          (some (ratingOnlyStat (23 / 20))) ≤ 2) :=
  ⟨rfl, rfl,
    computeRating_within_default_bounds exampleImpactConfig (9 / 10)
      (some (ratingOnlyStat (23 / 20))) rfl rfl rfl⟩

/-- C6 counterexample: for the stats object whose only populated field is
`rating = 0`, the code does not return `clamp(rating, 0.5, 2.0) = 0.5`: the
zero-valued impact dimension is dropped by the `!== 0` weighting check, so
the (clamped) default rating `0.9` is returned instead. -/
theorem computeRating_zero_rating_counterexample :
    calculateWeightedPlayerRating exampleImpactConfig (9 / 10)
        (some (ratingOnlyStat 0)) = 9 / 10 ∧
      max exampleImpactConfig.rating.min (min 0 exampleImpactConfig.rating.max) = 1 / 2 ∧
      (9 / 10 : ℚ) ≠ 1 / 2 := by
  refine ⟨?_, ?_, by norm_num⟩
  · norm_num [calculateWeightedPlayerRating, calculatePlayerImpactScores, ratingOnlyStat,
      weightedRatingPreClamp, weightedSumAndWeight, exampleImpactConfig]
  · norm_num [exampleImpactConfig]

/-- C6 (amended): for every `PlayerStat` with only `rating` populated and the
rating non-zero (and a positive configured impact weight),
`calculateWeightedPlayerRating` returns exactly the rating clamped to the
configured bounds. -/
theorem computeRating_rating_only_nonzero (cfg : PlayerImpactConfig)
    (defaultRating r : ℚ) (hw : 0 < cfg.weights.impact) (hr : r ≠ 0) :
    calculateWeightedPlayerRating cfg defaultRating (some (ratingOnlyStat r)) =
      max cfg.rating.min (min r cfg.rating.max) := by
  have hw' : cfg.weights.impact ≠ 0 := ne_of_gt hw
  simp [calculateWeightedPlayerRating, calculatePlayerImpactScores, ratingOnlyStat,
    weightedRatingPreClamp, weightedSumAndWeight, hr, hw, hw',
    mul_div_cancel_right₀]

/-- Witness for the amended C6 at a concrete configuration and rating. -/
theorem computeRating_rating_only_nonzero_witness :
    0 < exampleImpactConfig.weights.impact ∧ (23 / 20 : ℚ) ≠ 0 ∧
    calculateWeightedPlayerRating exampleImpactConfig (9 / 10)
        (some (ratingOnlyStat (23 / 20))) =
      max exampleImpactConfig.rating.min (min (23 / 20) exampleImpactConfig.rating.max) :=
  ⟨by norm_num [exampleImpactConfig], by norm_num,
    computeRating_rating_only_nonzero exampleImpactConfig (9 / 10) (23 / 20)
      (by norm_num [exampleImpactConfig]) (by norm_num)⟩

/-- C7 counterexample: for the stats object whose only populated field is
`killsPerRound = 0`, the fragging dimension has a contributing sub-metric
(score `0`), yet the code's weighting drops it (pre-clamp rating is the
default `0.9`), while the spec's renormalised sum over dimensions with at
least one contributing sub-metric gives `0`. -/
theorem preclamp_zero_score_dimension_counterexample :
    calculatePlayerImpactScores exampleImpactConfig (some kprZeroStat) = some kprZeroScores ∧
    0 < kprZeroScores.factorsUsedFragging ∧
    weightedRatingPreClamp exampleImpactConfig (9 / 10) kprZeroScores = 9 / 10 ∧
    specWeightedRatingPreClamp exampleImpactConfig (9 / 10) kprZeroScores = 0 ∧
    (9 / 10 : ℚ) ≠ 0 := by
  refine ⟨?_, ?_, ?_, ?_, by norm_num⟩
  · norm_num [calculatePlayerImpactScores, kprZeroStat, kprZeroScores, exampleImpactConfig]
  · norm_num [kprZeroScores]
  · norm_num [weightedRatingPreClamp, weightedSumAndWeight, kprZeroScores, exampleImpactConfig]
  · norm_num [specWeightedRatingPreClamp, kprZeroScores, exampleImpactConfig]

/-- C7 (amended): a dimension with no contributing sub-metric always has
score `0` (and hence never enters the weighting), and whenever every
dimension that has a contributing sub-metric has a non-zero score, the
pre-clamp rating is exactly the spec's weighted sum over the dimensions with
at least one contributing sub-metric, renormalised by their weights.  (The
code's weighting keys on `score ≠ 0`, so a dimension with present sub-metrics
but score exactly `0` is dropped — the counterexample above.) -/
theorem preclamp_weighting_characterization (cfg : PlayerImpactConfig)
    (defaultRating : ℚ) (s : PlayerStat) (scores : PlayerImpactScores)
    (h : calculatePlayerImpactScores cfg (some s) = some scores)
    (hfrag : 0 < scores.factorsUsedFragging → scores.fragging ≠ 0)
    (hcons : 0 < scores.factorsUsedConsistency → scores.consistency ≠ 0)
    (himp : 0 < scores.factorsUsedImpact → scores.impact ≠ 0)
    (hsurv : 0 < scores.factorsUsedSurvival → scores.survival ≠ 0) :
    (scores.fragging = 0 ∨ 0 < scores.factorsUsedFragging) ∧
    (scores.consistency = 0 ∨ 0 < scores.factorsUsedConsistency) ∧
    (scores.impact = 0 ∨ 0 < scores.factorsUsedImpact) ∧
    (scores.survival = 0 ∨ 0 < scores.factorsUsedSurvival) ∧
    weightedRatingPreClamp cfg defaultRating scores =
      specWeightedRatingPreClamp cfg defaultRating scores := by
  simp only [calculatePlayerImpactScores, Option.some.injEq] at h
  have heq := h.symm
  have d1 : scores.fragging = 0 ∨ 0 < scores.factorsUsedFragging := by
    rw [heq]
    cases hk : s.killsPerRound <;> cases hh : s.headshots <;> simp [hk, hh]
  have d2 : scores.consistency = 0 ∨ 0 < scores.factorsUsedConsistency := by
    rw [heq]
    cases hrc : s.roundsContributed <;> cases hmp : s.mapsPlayed <;> simp [hrc, hmp]
  have d3 : scores.impact = 0 ∨ 0 < scores.factorsUsedImpact := by
    rw [heq]
    cases hr : s.rating <;> simp [hr]
  have d4 : scores.survival = 0 ∨ 0 < scores.factorsUsedSurvival := by
    rw [heq]
    cases hd : s.deathsPerRound <;> simp [hd]
  have efrag : (scores.fragging ≠ 0) ↔ (0 < scores.factorsUsedFragging) :=
    ⟨fun hne => d1.resolve_left hne, hfrag⟩
  have econs : (scores.consistency ≠ 0) ↔ (0 < scores.factorsUsedConsistency) :=
    ⟨fun hne => d2.resolve_left hne, hcons⟩
  have eimp : (scores.impact ≠ 0) ↔ (0 < scores.factorsUsedImpact) :=
    ⟨fun hne => d3.resolve_left hne, himp⟩
  have esurv : (scores.survival ≠ 0) ↔ (0 < scores.factorsUsedSurvival) :=
    ⟨fun hne => d4.resolve_left hne, hsurv⟩
  refine ⟨d1, d2, d3, d4, ?_⟩
  simp only [weightedRatingPreClamp, specWeightedRatingPreClamp, weightedSumAndWeight,
    efrag, econs, eimp, esurv]

/-- Witness for the amended C7 at a concrete input (only `rating = 1`
populated). -/
theorem preclamp_weighting_characterization_witness :
    (ratingOneScores.fragging = 0 ∨ 0 < ratingOneScores.factorsUsedFragging) ∧
    (ratingOneScores.consistency = 0 ∨ 0 < ratingOneScores.factorsUsedConsistency) ∧
    (ratingOneScores.impact = 0 ∨ 0 < ratingOneScores.factorsUsedImpact) ∧
    (ratingOneScores.survival = 0 ∨ 0 < ratingOneScores.factorsUsedSurvival) ∧
    weightedRatingPreClamp exampleImpactConfig (9 / 10) ratingOneScores =
      specWeightedRatingPreClamp exampleImpactConfig (9 / 10) ratingOneScores :=
  preclamp_weighting_characterization exampleImpactConfig (9 / 10) (ratingOnlyStat 1)
    ratingOneScores
    (by norm_num [calculatePlayerImpactScores, ratingOnlyStat, ratingOneScores])
    (by norm_num [ratingOneScores])
    (by norm_num [ratingOneScores])
    (by norm_num [ratingOneScores])
    (by norm_num [ratingOneScores])

/-- C1 (code versus claim): player id 7998 has a fresh cache entry written at
the current time (age 0, well inside the 24-hour TTL) whose stored value is
the cached "known miss" null — the cache manager returns that stored null —
yet `fetchPlayerStatsById` issues an upstream call anyway, because its
`if (cachedData)` truthiness test cannot distinguish a cached null from a
cache miss. -/
theorem cachedNullEntry_triggers_upstream :
    getFromCache false 24 1000000 nullMissCache 7998 = some none ∧
    (fetchPlayerStatsById false 24 1000000 nullMissCache 7998
        (Except.ok none)).usedUpstream = true := by
  constructor <;> rfl

/-- Auxiliary for C3: against an operation whose every attempt fails with a
transient error, the retry loop performs exactly the remaining number of
allowed attempts. -/
lemma retryStep_attempts_allTransient (retryDelay : ℚ) (g : ℕ → AttemptOutcome)
    (hg : ∀ k, g k = AttemptOutcome.transientError) :
    ∀ remaining attempt, (retryStep retryDelay g attempt remaining).attempts = remaining := by
  intro remaining
  induction remaining with
  | zero => intro attempt; rfl
  | succ r ih =>
    intro attempt
    rw [retryStep, hg attempt]
    by_cases hr : r = 0
    · subst hr; rfl
    · simp only [hr, if_false, ih (attempt + 1)]
      omega

/-- Auxiliary for C3: against an always-transient operation, starting at an
attempt number of at least 2, the backoff waits are `retryDelay * k` for the
consecutive attempt numbers `k`. -/
lemma retryStep_waits_allTransient (retryDelay : ℚ) (g : ℕ → AttemptOutcome)
    (hg : ∀ k, g k = AttemptOutcome.transientError) :
    ∀ remaining attempt, 2 ≤ attempt →
      (retryStep retryDelay g attempt remaining).backoffWaits =
        (List.range' attempt remaining).map (fun k => retryDelay * k) := by
  intro remaining
  induction remaining with
  | zero => intro attempt _; rfl
  | succ r ih =>
    intro attempt ha
    rw [retryStep, hg attempt]
    have h1 : 1 < attempt := ha
    by_cases hr : r = 0
    · subst hr
      simp [h1, List.range']
    · simp only [hr, if_false, h1, if_true, List.range'_succ, List.map_cons,
        ih (attempt + 1) (by omega)]
      rfl

/-- C3: an error not classified transient on the first attempt causes exactly
one upstream attempt with no backoff wait, while an error classified
transient on every attempt causes exactly the configured `retryAttempts`
attempts, preceded (from the second attempt on) by waits of
`retryDelay * attemptNumber`: the linear sequence
`retryDelay * 2, …, retryDelay * retryAttempts`. -/
theorem retry_attempt_counts (retryAttempts : ℕ) (retryDelay : ℚ)
    (f g : ℕ → AttemptOutcome) (hn : 1 ≤ retryAttempts)
    (hf : f 1 = AttemptOutcome.permanentError)
    (hg : ∀ k, g k = AttemptOutcome.transientError) :
    (retryableRequest retryAttempts retryDelay f).attempts = 1 ∧
    (retryableRequest retryAttempts retryDelay f).backoffWaits = [] ∧
    (retryableRequest retryAttempts retryDelay g).attempts = retryAttempts ∧
    (retryableRequest retryAttempts retryDelay g).backoffWaits =
      (List.range' 2 (retryAttempts - 1)).map (fun k => retryDelay * k) := by
  obtain ⟨n, rfl⟩ : ∃ n, retryAttempts = n + 1 :=
    ⟨retryAttempts - 1, (Nat.succ_pred_eq_of_pos hn).symm⟩
  refine ⟨?_, ?_, retryStep_attempts_allTransient retryDelay g hg (n + 1) 1, ?_⟩
  · rw [retryableRequest, retryStep, hf]
  · rw [retryableRequest, retryStep, hf]
    rfl
  · rw [retryableRequest, retryStep, hg 1]
    by_cases hn0 : n = 0
    · subst hn0; rfl
    · simp only [hn0, if_false]
      have := retryStep_waits_allTransient retryDelay g hg n 2 (by omega)
      simp only [this, Nat.add_sub_cancel]
      rfl

/-- Witness for C3 with three configured attempts and a base delay of 5000:
the always-transient run waits 10000 then 15000 between its three attempts. -/
theorem retry_attempt_counts_witness :
    1 ≤ 3 ∧ alwaysPermanent 1 = AttemptOutcome.permanentError ∧
    (retryableRequest 3 5000 alwaysPermanent).attempts = 1 ∧
    (retryableRequest 3 5000 alwaysPermanent).backoffWaits = [] ∧
    (retryableRequest 3 5000 alwaysTransient).attempts = 3 ∧
    (retryableRequest 3 5000 alwaysTransient).backoffWaits = [10000, 15000] := by
  have h := retry_attempt_counts 3 5000 alwaysPermanent alwaysTransient (by omega) rfl
    (fun k => rfl)
  refine ⟨by omega, rfl, h.1, h.2.1, h.2.2.1, h.2.2.2.trans ?_⟩
  norm_num [List.range']

/-- C8 counterexample: a successfully fetched stats object whose rating is
`Infinity` is not a finite number, yet the gateway's validation accepts it
(the source only tests `typeof` and `isNaN`), so the full stats object — not
null — is cached and returned. -/
theorem infinite_rating_cached_counterexample :
    specRatingIsFinite infinityRatingStats = false ∧
    processFetchedStats (some infinityRatingStats) =
      (some infinityRatingStats, some infinityRatingStats) ∧
    some infinityRatingStats ≠ (none : Option FetchedStats) := by
  refine ⟨rfl, rfl, ?_⟩
  simp

/-- C8 (amended): on upstream success the gateway caches and returns the same
value; it caches and returns the full stats object exactly when the rating
field is of number type and not `NaN` (so `±Infinity` passes), and caches and
returns null exactly when the rating is missing, non-numeric or `NaN`; a null
fetched value is cached and returned as null. -/
theorem rating_validation_characterization (s : FetchedStats) :
    (processFetchedStats (some s)).1 = (processFetchedStats (some s)).2 ∧
    ((processFetchedStats (some s)).2 = some s ↔
      ∃ n, s.rating = some n ∧ n ≠ JsNumber.nan) ∧
    ((processFetchedStats (some s)).2 = none ↔
      (s.rating = none ∨ s.rating = some JsNumber.nan)) ∧
    processFetchedStats none = ((none : Option FetchedStats), (none : Option FetchedStats)) := by
  obtain ⟨r, d⟩ := s
  refine ⟨?_, ?_, ?_, rfl⟩ <;>
    cases r with
    | none => simp [processFetchedStats, ratingIsValidNumber]
    | some n => cases n <;> simp [processFetchedStats, ratingIsValidNumber]

/-- C2: for every scaling factor and effective difference, the resolver's
first probability is the logistic value clamped to the default bounds
`[0.05, 0.95]` — in particular it lies in that interval — and the second
probability is derived as `1 - p1`, so the two sum to `1` exactly. -/
theorem resolver_probability_bounds_and_sum (scalingFactor effectiveDifference : ℝ) :
    clampedTeam1Prob (1 / 20) (19 / 20) scalingFactor effectiveDifference =
      max ((1 / 20 : ℚ) : ℝ) (min ((19 / 20 : ℚ) : ℝ)
        (1 / (1 + Real.exp (-scalingFactor * effectiveDifference)))) ∧
    (1 / 20 : ℝ) ≤ clampedTeam1Prob (1 / 20) (19 / 20) scalingFactor effectiveDifference ∧
    clampedTeam1Prob (1 / 20) (19 / 20) scalingFactor effectiveDifference ≤ 19 / 20 ∧
    clampedTeam2Prob (1 / 20) (19 / 20) scalingFactor effectiveDifference =
      1 - clampedTeam1Prob (1 / 20) (19 / 20) scalingFactor effectiveDifference ∧
    clampedTeam1Prob (1 / 20) (19 / 20) scalingFactor effectiveDifference +
      clampedTeam2Prob (1 / 20) (19 / 20) scalingFactor effectiveDifference = 1 := by
  refine ⟨rfl, ?_, ?_, rfl, by rw [clampedTeam2Prob]; ring⟩
  · rw [clampedTeam1Prob]
    calc (1 / 20 : ℝ) = ((1 / 20 : ℚ) : ℝ) := by norm_num
    _ ≤ _ := le_max_left _ _
  · rw [clampedTeam1Prob]
    refine max_le (by norm_num) ((min_le_left _ _).trans ?_)
    norm_num

/-- C9: for every metrics input (with the default low-quality cap `0.4`), the
returned confidence level lies in `[0, 1]`, and a low quality tier forces the
level to be at most `0.4` regardless of the multiplicative penalties. -/
theorem confidence_level_bounds (cfg : DataQualityConfig) (m : ConfidenceMetrics)
    (hcap : cfg.lowQualityCap = 2 / 5) :
    0 ≤ (calculateConfidenceLevel cfg m).level ∧
    (calculateConfidenceLevel cfg m).level ≤ 1 ∧
    ((calculateConfidenceLevel cfg m).qualityLevel = QualityLevel.low →
      (calculateConfidenceLevel cfg m).level ≤ 2 / 5) := by
  refine ⟨confidenceLevel_nonneg cfg m, confidenceLevel_le_one cfg m, fun hlow => ?_⟩
  have hlow' : qualityLevel cfg m = QualityLevel.low := hlow
  rw [calculateConfidenceLevel] at *
  rw [confidenceLevel, if_pos hlow', ← hcap]
  exact max_le (hcap ▸ by norm_num)
    ((min_le_right _ _).trans (min_le_right _ _))

/-- Witness for C9 at the concrete configuration (cap `0.4`) and the all-zero
metrics, whose quality tier is low. -/
theorem confidence_level_bounds_witness :
    exampleQualityConfig.lowQualityCap = 2 / 5 ∧
    0 ≤ (calculateConfidenceLevel exampleQualityConfig zeroMetrics).level ∧
    (calculateConfidenceLevel exampleQualityConfig zeroMetrics).level ≤ 1 ∧
    (calculateConfidenceLevel exampleQualityConfig zeroMetrics).qualityLevel =
      QualityLevel.low ∧
    (calculateConfidenceLevel exampleQualityConfig zeroMetrics).level ≤ 2 / 5 := by
  have h := confidence_level_bounds exampleQualityConfig zeroMetrics rfl
  have hlow : (calculateConfidenceLevel exampleQualityConfig zeroMetrics).qualityLevel =
      QualityLevel.low := by
    norm_num [calculateConfidenceLevel, qualityLevel, weightedQualityScore,
      playerStatsQuality, h2hQuality, h2hTotalMet, h2hRecentMet, mapStatsQuality,
      mapStatsGuard, mapStatsMet, rankQuality, zeroMetrics, exampleQualityConfig]
  exact ⟨rfl, h.1, h.2.1, hlow, h.2.2 hlow⟩

/-- C10: when `totalPlayers = 0`, the player-stats quality sub-score is `0`,
the player-stats penalty multiplier is `1` (no penalty is applied), and the
`insufficient_player_stats` factor is never reported, even though
`playersWithStats` would also fail its minimum. -/
theorem no_player_penalty_without_players (cfg : DataQualityConfig)
    (m : ConfidenceMetrics) (h : m.totalPlayers = 0) :
    playerStatsQuality cfg m = 0 ∧ playerStatsPenalty cfg m = 1 ∧
    ("insufficient_player_stats") ∉ (calculateConfidenceLevel cfg m).factors := by
  have hng : ¬ 0 < m.totalPlayers := by omega
  have hnt : ¬ playerStatsPenaltyTriggered cfg m := fun hc => hng hc.1
  refine ⟨by rw [playerStatsQuality, if_neg hng], by rw [playerStatsPenalty, if_neg hnt], ?_⟩
  rw [calculateConfidenceLevel]
  simp only [allFactors, penaltyFactors, if_neg hnt, List.nil_append, List.mem_append]
  push_neg
  constructor
  · split_ifs <;> simp_all
  · split_ifs <;> simp_all

/-- Witness for C10 at the concrete configuration and the all-zero metrics. -/
theorem no_player_penalty_without_players_witness :
    zeroMetrics.totalPlayers = 0 ∧
    playerStatsQuality exampleQualityConfig zeroMetrics = 0 ∧
    playerStatsPenalty exampleQualityConfig zeroMetrics = 1 ∧
    ("insufficient_player_stats") ∉
      (calculateConfidenceLevel exampleQualityConfig zeroMetrics).factors := by
  have h := no_player_penalty_without_players exampleQualityConfig zeroMetrics rfl
  exact ⟨rfl, h.1, h.2.1, h.2.2⟩

/-- C4: for every pair of (validated) team inputs, every pattern of
per-player fetch outcomes — including fetch errors and null or partial
stats — every head-to-head outcome including an error, and every optional
map, `predictWinProbability` produces a `PredictionOutcome` (never the null
of the outer catch), with a confidence level in `[0, 1]` and the second
probability derived from the first. -/
theorem predictWinProbability_total (icfg : PlayerImpactConfig) (defaultRating : ℚ)
    (qcfg : DataQualityConfig) (pcfg : PredictionConfig)
    (team1Data team2Data : TeamData) (fetch : ℕ → Except Unit (Option PlayerStat))
    (h2h : Except Unit H2HRecord) (mapName : Option String) :
    ∃ outcome,
      predictWinProbability icfg defaultRating qcfg pcfg team1Data team2Data fetch
          h2h mapName = some outcome ∧
      0 ≤ outcome.confidence ∧ outcome.confidence ≤ 1 ∧
      outcome.team2Probability = 1 - outcome.team1Probability := by
  refine ⟨_, rfl, ?_, ?_, rfl⟩
  · exact confidenceLevel_nonneg qcfg _
  · exact confidenceLevel_le_one qcfg _

end Hltv
